import Mathlib

/-!
Verification development for the two browser-verification scripts of this
repository, `verification/verify_ipad.py` and `verification/verify_player.py`.

Each script is a straight-line sequence of calls into a browser-automation
library.  We embed a run shallowly: every library call the script makes is an
`Event`; whether a fallible call succeeds or raises is supplied by an
environment record (`IpadEnv`, `PlayerEnv`) holding one `Except String Unit`
outcome per call site, in program order.  The interpreter threads a `RunState`
(the ordered trace of calls made, and the list of screenshot paths whose
screenshot call succeeded) and reproduces the Python control flow exactly:
which statements sit inside the `try`, where the `except` catches, where the
`finally` runs, and which errors escape the function.  The run result records
the trace, the files written, and the exit status (`Except.ok` is a
zero-equivalent exit of the process, `Except.error e` an escaped exception).
-/

/-- One observable action of a run: a call made into the browser-automation
library, or a console print.  Arguments carry the literal values the scripts
pass. -/
inductive Event where
  | launch (headless : Bool)
  | newContext (width : Nat) (height : Nat) (userAgent : String)
  | newPage
  | goto (url : String)
  | waitForSelector (sel : String) (timeoutMs : Option Nat) (state : Option String)
  | click (sel : String)
  | waitForTimeout (ms : Nat)
  | screenshot (path : String)
  | print (msg : String)
  | browserClose
deriving DecidableEq

/-- The literal URL both scripts navigate to. -/
def appUrl : String := "http://localhost:3000"

/-- The literal iPad user-agent string of `verify_ipad.py`. -/
def ipadUserAgent : String :=
  "Mozilla/5.0 (iPad; CPU OS 11_0 like Mac OS X) AppleWebKit/604.1.34 (KHTML, like Gecko) Version/11.0 Mobile/15A5341f Safari/604.1"

/-- Selector literal `text=Recent Heat`. -/
def recentHeatSel : String := "text=Recent Heat"

/-- Selector literal `text=Library`. -/
def librarySel : String := "text=Library"

/-- Selector literal `text=Search`. -/
def searchSel : String := "text=Search"

/-- Selector literal `h1` used by the player runner. -/
def h1Sel : String := "h1"

/-- The `state=visible` argument of the player runner's wait. -/
def visibleState : String := "visible"

/-- Screenshot path literal of the iPad home view. -/
def homeIpadPath : String := "verification/home_ipad.png"

/-- Screenshot path literal of the iPad library view. -/
def libraryIpadPath : String := "verification/library_ipad.png"

/-- Screenshot path literal of the iPad search view. -/
def searchIpadPath : String := "verification/search_ipad.png"

/-- Relative screenshot path literal of the player runner. -/
def homeRel : String := "verification/home.png"

/-- Console message after the iPad home screenshot. -/
def homeMsg : String := "Home screenshot taken"

/-- Console message after the iPad library screenshot. -/
def libraryMsg : String := "Library screenshot taken"

/-- Console message after the iPad search screenshot. -/
def searchMsg : String := "Search screenshot taken"

/-- The text the iPad runner's `except` clause prints before the error. -/
def errLabel : String := "Error: "

/-- The text the player runner prints before the screenshot path. -/
def playerMsg : String := "Home screenshot taken at "

/-- Path separator used by `os.path.join`. -/
def sep : String := "/"

/-- Path separator as a character. -/
def sepChar : Char := '/'

/-- `os.path.join(base, rel)` for the non-absolute literal `rel` the player
runner passes: an empty base is dropped, a trailing separator is not
doubled. -/
def joinPath (base : String) (rel : String) : String :=
  match base.data.getLast? with
  | none => rel
  | some c => if c = sepChar then base ++ rel else base ++ sep ++ rel

/-- State threaded through a run: the ordered trace of calls made so far and
the screenshot paths whose screenshot call succeeded. -/
structure RunState where
  trace : List Event
  files : List String
deriving DecidableEq

/-- Append one event to the trace. -/
def RunState.push (s : RunState) (ev : Event) : RunState :=
  ⟨s.trace ++ [ev], s.files⟩

/-- Append a successful screenshot: the call event plus the written file. -/
def RunState.record (s : RunState) (p : String) : RunState :=
  ⟨s.trace ++ [Event.screenshot p], s.files ++ [p]⟩

/-- Make one fallible library call: the call event is always traced (the call
was attempted); on an error outcome execution stops with that error, on
success the continuation runs. -/
def call (s : RunState) (ev : Event) (out : Except String Unit)
    (k : RunState → RunState × Except String Unit) : RunState × Except String Unit :=
  match out with
  | .error e => (s.push ev, .error e)
  | .ok _ => k (s.push ev)

/-- Make one fallible screenshot call: on success the file is recorded as
written. -/
def shot (s : RunState) (p : String) (out : Except String Unit)
    (k : RunState → RunState × Except String Unit) : RunState × Except String Unit :=
  match out with
  | .error e => (s.push (Event.screenshot p), .error e)
  | .ok _ => k (s.record p)

/-- Outcomes of each fallible library call `verify_ipad.py` makes, in program
order.  (`wait_for_timeout` is a plain sleep and `print` console output; the
embedding treats those, and `browser.close()` on a live browser, as
non-failing.) -/
structure IpadEnv where
  launch : Except String Unit
  newContext : Except String Unit
  newPage : Except String Unit
  goto : Except String Unit
  waitRecentHeat : Except String Unit
  shotHome : Except String Unit
  clickLibrary : Except String Unit
  shotLibrary : Except String Unit
  clickSearch : Except String Unit
  shotSearch : Except String Unit

/-- The body of the `try` block of `verify_app` (lines 14-35 of
`verify_ipad.py`): navigate, wait for "Recent Heat" with a 10000 ms timeout,
screenshot home, click Library, sleep 500 ms, screenshot library, click
Search, sleep 500 ms, screenshot search, with a console print after each
successful screenshot.  Returns the extended state and `.error e` when a call
raised. -/
def ipadTryBody (env : IpadEnv) (s : RunState) : RunState × Except String Unit :=
  call s (Event.goto appUrl) env.goto fun s =>
  call s (Event.waitForSelector recentHeatSel (some 10000) none) env.waitRecentHeat fun s =>
  shot s homeIpadPath env.shotHome fun s =>
  call (s.push (Event.print homeMsg)) (Event.click librarySel) env.clickLibrary fun s =>
  shot (s.push (Event.waitForTimeout 500)) libraryIpadPath env.shotLibrary fun s =>
  call (s.push (Event.print libraryMsg)) (Event.click searchSel) env.clickSearch fun s =>
  shot (s.push (Event.waitForTimeout 500)) searchIpadPath env.shotSearch fun s =>
  (s.push (Event.print searchMsg), .ok ())

deriving instance DecidableEq for Except

/-- Result of a whole run: trace of calls made, screenshot files written, and
exit status (`.ok ()` = the script returned normally, a zero-equivalent exit;
`.error e` = the exception `e` escaped, a non-zero-equivalent exit). -/
structure RunOutcome where
  trace : List Event
  files : List String
  exit : Except String Unit
deriving DecidableEq

/-- `verify_app` of `verify_ipad.py`: launch, create the iPad context
(viewport 834x1194 and the literal user agent), open a page — all before the
`try`, so an error there escapes — then run the `try` body; its error is
caught by `except` and printed as `Error: <e>`; `finally` closes the
browser; the function returns normally. -/
def verify_app (env : IpadEnv) : RunOutcome :=
  let run :=
    call ⟨[], []⟩ (Event.launch true) env.launch fun s =>
    call s (Event.newContext 834 1194 ipadUserAgent) env.newContext fun s =>
    call s Event.newPage env.newPage fun s =>
    let sr := ipadTryBody env s
    let s1 := match sr.2 with
      | .error e => sr.1.push (Event.print (errLabel ++ e))
      | .ok _ => sr.1
    (s1.push Event.browserClose, .ok ())
  ⟨run.1.trace, run.1.files, run.2⟩

/-- Outcomes of each fallible library call of `verify_player.py`, in program
order, plus the working directory `os.getcwd()` returns. -/
structure PlayerEnv where
  launch : Except String Unit
  newPage : Except String Unit
  goto : Except String Unit
  waitH1 : Except String Unit
  shotHome : Except String Unit
  cwd : String

/-- `verify_audio_player` of `verify_player.py`: navigate, wait for a visible
`h1` with no timeout override, screenshot to `os.path.join(cwd,
"verification/home.png")`, print the path.  No local error handling: the
first error stops the function and is returned to the caller. -/
def verify_audio_player (env : PlayerEnv) (s : RunState) : RunState × Except String Unit :=
  call s (Event.goto appUrl) env.goto fun s =>
  call s (Event.waitForSelector h1Sel none (some visibleState)) env.waitH1 fun s =>
  shot s (joinPath env.cwd homeRel) env.shotHome fun s =>
  (s.push (Event.print (playerMsg ++ joinPath env.cwd homeRel)), .ok ())

/-- The `__main__` block of `verify_player.py`: launch and open a page before
the `try` (an error there escapes without the close), then
`verify_audio_player` inside `try ... finally: browser.close()` — the close
runs on both paths and the body's error still propagates. -/
def playerMain (env : PlayerEnv) : RunOutcome :=
  let run :=
    call ⟨[], []⟩ (Event.launch true) env.launch fun s =>
    call s Event.newPage env.newPage fun s =>
    let sr := verify_audio_player env s
    (sr.1.push Event.browserClose, sr.2)
  ⟨run.1.trace, run.1.files, run.2⟩

/-- `subseq pat l` is true when `pat` occurs inside `l` in order (a
subsequence check), used to state that a run makes given calls in a given
order. -/
def subseq : List Event → List Event → Bool
  | [], _ => true
  | _ :: _, [] => false
  | a :: l, b :: m => if a = b then subseq l m else subseq (a :: l) m

/-- `firstPartOf l m` is true when `l` is an initial segment of `m`. -/
def firstPartOf : List String → List String → Bool
  | [], _ => true
  | _ :: _, [] => false
  | a :: l, b :: m => a = b && firstPartOf l m

/-- The three iPad screenshot paths in the order the script writes them. -/
def ipadArtifacts : List String := [homeIpadPath, libraryIpadPath, searchIpadPath]

/-- First error in a list of call outcomes, if any. -/
def firstErr : List (Except String Unit) → Option String
  | [] => none
  | Except.error e :: _ => some e
  | Except.ok _ :: rest => firstErr rest

/-- The error the `try` block of `verify_app` raises, if any: the calls of the
block run in program order and the first failing one aborts the block. -/
def tryBlockErr (env : IpadEnv) : Option String :=
  firstErr [env.goto, env.waitRecentHeat, env.shotHome, env.clickLibrary,
    env.shotLibrary, env.clickSearch, env.shotSearch]

/-- The paths of all screenshot calls appearing in a trace, in order. -/
def screenshotPathsIn (l : List Event) : List String :=
  l.filterMap fun ev => match ev with
    | Event.screenshot p => some p
    | _ => none

/-- An iPad-runner environment in which every call succeeds. -/
def ipadEnvAllOk : IpadEnv :=
  ⟨.ok (), .ok (), .ok (), .ok (), .ok (), .ok (), .ok (), .ok (), .ok (), .ok ()⟩

/-- Error message of a failed navigation (application unreachable). -/
def navErrMsg : String := "net::ERR_CONNECTION_REFUSED at http://localhost:3000"

/-- Error message of a failed browser-context creation. -/
def ctxErrMsg : String := "browser context creation failed"

/-- Error message of a failed page creation. -/
def pageErrMsg : String := "page creation failed"

/-- An iPad-runner environment in which navigation fails and everything else
would succeed. -/
def ipadEnvNavFail : IpadEnv :=
  ⟨.ok (), .ok (), .ok (), .error navErrMsg, .ok (), .ok (), .ok (), .ok (), .ok (), .ok ()⟩

/-- An iPad-runner environment in which context creation fails. -/
def ipadEnvCtxFail : IpadEnv :=
  ⟨.ok (), .error ctxErrMsg, .ok (), .ok (), .ok (), .ok (), .ok (), .ok (), .ok (), .ok ()⟩

/-- A concrete working directory. -/
def cwdA : String := "/home/runnerA"

/-- Another concrete working directory. -/
def cwdB : String := "/home/runnerB"

/-- A player-runner environment in which every call succeeds, run from `cwdA`. -/
def playerEnvOk : PlayerEnv := ⟨.ok (), .ok (), .ok (), .ok (), .ok (), cwdA⟩

/-- The same outcomes as `playerEnvOk` but run from `cwdB`. -/
def playerEnvOkB : PlayerEnv := ⟨.ok (), .ok (), .ok (), .ok (), .ok (), cwdB⟩

/-- A player-runner environment in which navigation fails. -/
def playerEnvNavFail : PlayerEnv := ⟨.ok (), .ok (), .error navErrMsg, .ok (), .ok (), cwdA⟩

/-- A player-runner environment in which page creation fails. -/
def playerEnvPageFail : PlayerEnv := ⟨.ok (), .error pageErrMsg, .ok (), .ok (), .ok (), cwdA⟩

/-- Once setup succeeded, `verify_app` returns normally whatever the `try`
block does: the `except` clause catches every error. -/
lemma ipad_exit_ok (g w sh cl sl cs ss : Except String Unit) :
    (verify_app ⟨.ok (), .ok (), .ok (), g, w, sh, cl, sl, cs, ss⟩).exit = .ok () := by
  rcases g with e1 | u1 <;> rcases w with e2 | u2 <;> rcases sh with e3 | u3 <;>
    rcases cl with e4 | u4 <;> rcases sl with e5 | u5 <;> rcases cs with e6 | u6 <;>
    rcases ss with e7 | u7 <;> rfl

/-- Once setup succeeded, the `finally` clause closes the browser whatever the
`try` block does. -/
lemma ipad_close_in_trace (g w sh cl sl cs ss : Except String Unit) :
    Event.browserClose ∈
      (verify_app ⟨.ok (), .ok (), .ok (), g, w, sh, cl, sl, cs, ss⟩).trace := by
  rcases g with e1 | u1 <;> rcases w with e2 | u2 <;> rcases sh with e3 | u3 <;>
    rcases cl with e4 | u4 <;> rcases sl with e5 | u5 <;> rcases cs with e6 | u6 <;>
    rcases ss with e7 | u7 <;> exact of_decide_eq_true rfl

/-- Once setup succeeded, an error raised in the `try` block is logged by the
`except` clause as `Error: <e>`. -/
lemma ipad_error_logged (g w sh cl sl cs ss : Except String Unit) (e : String)
    (he : firstErr [g, w, sh, cl, sl, cs, ss] = some e) :
    Event.print (errLabel ++ e) ∈
      (verify_app ⟨.ok (), .ok (), .ok (), g, w, sh, cl, sl, cs, ss⟩).trace := by
  rcases g with e1 | u1
  · simp only [firstErr, Option.some.injEq] at he
    subst he
    simp [verify_app, ipadTryBody, call, shot, RunState.push, RunState.record]
  rcases w with e1 | u2
  · simp only [firstErr, Option.some.injEq] at he
    subst he
    simp [verify_app, ipadTryBody, call, shot, RunState.push, RunState.record]
  rcases sh with e1 | u3
  · simp only [firstErr, Option.some.injEq] at he
    subst he
    simp [verify_app, ipadTryBody, call, shot, RunState.push, RunState.record]
  rcases cl with e1 | u4
  · simp only [firstErr, Option.some.injEq] at he
    subst he
    simp [verify_app, ipadTryBody, call, shot, RunState.push, RunState.record]
  rcases sl with e1 | u5
  · simp only [firstErr, Option.some.injEq] at he
    subst he
    simp [verify_app, ipadTryBody, call, shot, RunState.push, RunState.record]
  rcases cs with e1 | u6
  · simp only [firstErr, Option.some.injEq] at he
    subst he
    simp [verify_app, ipadTryBody, call, shot, RunState.push, RunState.record]
  rcases ss with e1 | u7
  · simp only [firstErr, Option.some.injEq] at he
    subst he
    simp [verify_app, ipadTryBody, call, shot, RunState.push, RunState.record]
  simp [firstErr] at he

/-- Claim C1: on invocation the iPad runner acquires a browser session
configured with viewport width 834 and height 1194 and the literal iPad
user-agent string, navigates to http://localhost:3000, and waits at most
10000 ms for an element with text "Recent Heat"; when the application is
reachable (the navigation succeeds) and that wait succeeds within the bound,
it makes the screenshot call for verification/home_ipad.png — all in that
order. -/
theorem verify_app_home_screenshot (env : IpadEnv)
    (hl : env.launch = .ok ()) (hc : env.newContext = .ok ())
    (hp : env.newPage = .ok ()) (hg : env.goto = .ok ())
    (hw : env.waitRecentHeat = .ok ()) :
    subseq [Event.newContext 834 1194 ipadUserAgent, Event.goto appUrl,
      Event.waitForSelector recentHeatSel (some 10000) none,
      Event.screenshot homeIpadPath] (verify_app env).trace = true := by
  obtain ⟨l, c, np, g, w, sh, cl, sl, cs, ss⟩ := env
  subst hl hc hp hg hw
  rcases sh with e1 | u1 <;> rcases cl with e2 | u2 <;> rcases sl with e3 | u3 <;>
    rcases cs with e4 | u4 <;> rcases ss with e5 | u5 <;> exact of_decide_eq_true rfl

/-- Witness for C1 at the all-success environment. -/
theorem verify_app_home_screenshot_witness :
    subseq [Event.newContext 834 1194 ipadUserAgent, Event.goto appUrl,
      Event.waitForSelector recentHeatSel (some 10000) none,
      Event.screenshot homeIpadPath] (verify_app ipadEnvAllOk).trace = true :=
  verify_app_home_screenshot ipadEnvAllOk rfl rfl rfl rfl rfl

/-- Claim C2: after the home screenshot succeeds, the iPad runner clicks
"text=Library", waits a fixed 500 ms, and screenshots
verification/library_ipad.png; then clicks "text=Search", waits 500 ms, and
screenshots verification/search_ipad.png — in that order; the library file is
written when its click and screenshot succeed, the search file when its click
and screenshot succeed, and each file is written only if the corresponding
click succeeded. -/
theorem verify_app_tab_screenshots (env : IpadEnv)
    (hl : env.launch = .ok ()) (hc : env.newContext = .ok ())
    (hp : env.newPage = .ok ()) (hg : env.goto = .ok ())
    (hw : env.waitRecentHeat = .ok ()) :
    (env.shotHome = .ok () → env.clickLibrary = .ok () → env.shotLibrary = .ok () →
      env.clickSearch = .ok () →
      subseq [Event.screenshot homeIpadPath, Event.click librarySel,
        Event.waitForTimeout 500, Event.screenshot libraryIpadPath,
        Event.click searchSel, Event.waitForTimeout 500,
        Event.screenshot searchIpadPath] (verify_app env).trace = true)
    ∧ (env.shotHome = .ok () → env.clickLibrary = .ok () → env.shotLibrary = .ok () →
        libraryIpadPath ∈ (verify_app env).files)
    ∧ (env.shotHome = .ok () → env.clickLibrary = .ok () → env.shotLibrary = .ok () →
        env.clickSearch = .ok () → env.shotSearch = .ok () →
        searchIpadPath ∈ (verify_app env).files)
    ∧ (libraryIpadPath ∈ (verify_app env).files → env.clickLibrary = .ok ())
    ∧ (searchIpadPath ∈ (verify_app env).files → env.clickSearch = .ok ()) := by
  obtain ⟨l, c, np, g, w, sh, cl, sl, cs, ss⟩ := env
  subst hl hc hp hg hw
  rcases sh with e1 | u1 <;> rcases cl with e2 | u2 <;> rcases sl with e3 | u3 <;>
    rcases cs with e4 | u4 <;> rcases ss with e5 | u5 <;>
    exact ⟨of_decide_eq_true rfl, of_decide_eq_true rfl, of_decide_eq_true rfl,
      of_decide_eq_true rfl, of_decide_eq_true rfl⟩

/-- Witness for C2 at the all-success environment. -/
theorem verify_app_tab_screenshots_witness :
    subseq [Event.screenshot homeIpadPath, Event.click librarySel,
      Event.waitForTimeout 500, Event.screenshot libraryIpadPath,
      Event.click searchSel, Event.waitForTimeout 500,
      Event.screenshot searchIpadPath] (verify_app ipadEnvAllOk).trace = true
    ∧ libraryIpadPath ∈ (verify_app ipadEnvAllOk).files
    ∧ searchIpadPath ∈ (verify_app ipadEnvAllOk).files :=
  ⟨(verify_app_tab_screenshots ipadEnvAllOk rfl rfl rfl rfl rfl).1 rfl rfl rfl rfl,
   (verify_app_tab_screenshots ipadEnvAllOk rfl rfl rfl rfl rfl).2.1 rfl rfl rfl,
   (verify_app_tab_screenshots ipadEnvAllOk rfl rfl rfl rfl rfl).2.2.1 rfl rfl rfl rfl rfl⟩

/-- Claim C3: once setup succeeded, any error raised during the navigation,
waiting, or interaction phase of the iPad runner is caught: a console message
`Error: <e>` is printed, the run returns normally (zero-equivalent exit), and
the browser is closed. -/
theorem verify_app_swallows_try_errors (env : IpadEnv) (e : String)
    (hl : env.launch = .ok ()) (hc : env.newContext = .ok ())
    (hp : env.newPage = .ok ()) (he : tryBlockErr env = some e) :
    (verify_app env).exit = .ok ()
    ∧ Event.print (errLabel ++ e) ∈ (verify_app env).trace
    ∧ Event.browserClose ∈ (verify_app env).trace := by
  obtain ⟨l, c, np, g, w, sh, cl, sl, cs, ss⟩ := env
  subst hl hc hp
  exact ⟨ipad_exit_ok g w sh cl sl cs ss, ipad_error_logged g w sh cl sl cs ss e he,
    ipad_close_in_trace g w sh cl sl cs ss⟩

/-- Witness for C3 at an environment whose navigation fails. -/
theorem verify_app_swallows_try_errors_witness :
    (verify_app ipadEnvNavFail).exit = .ok ()
    ∧ Event.print (errLabel ++ navErrMsg) ∈ (verify_app ipadEnvNavFail).trace
    ∧ Event.browserClose ∈ (verify_app ipadEnvNavFail).trace :=
  verify_app_swallows_try_errors ipadEnvNavFail navErrMsg rfl rfl rfl rfl

/-- Claim C4: the player runner acquires a browser session with default
configuration (a plain `new_page`, no context options), navigates to
http://localhost:3000, waits for a visible `h1` with no timeout override, and
writes exactly one screenshot, at `os.path.join(cwd, "verification/home.png")`
— the whole trace is exactly these calls and the browser is then closed, with
a zero-equivalent exit. -/
theorem verify_audio_player_single_screenshot (env : PlayerEnv)
    (hl : env.launch = .ok ()) (hp : env.newPage = .ok ())
    (hg : env.goto = .ok ()) (hw : env.waitH1 = .ok ())
    (hs : env.shotHome = .ok ()) :
    (playerMain env).trace =
      [Event.launch true, Event.newPage, Event.goto appUrl,
       Event.waitForSelector h1Sel none (some visibleState),
       Event.screenshot (joinPath env.cwd homeRel),
       Event.print (playerMsg ++ joinPath env.cwd homeRel),
       Event.browserClose]
    ∧ (playerMain env).files = [joinPath env.cwd homeRel]
    ∧ (playerMain env).exit = .ok () := by
  obtain ⟨l, np, g, w, s, cwd⟩ := env
  subst hl hp hg hw hs
  exact ⟨rfl, rfl, rfl⟩

/-- Witness for C4 at an all-success environment with cwd `/home/runnerA`. -/
theorem verify_audio_player_single_screenshot_witness :
    (playerMain playerEnvOk).trace =
      [Event.launch true, Event.newPage, Event.goto appUrl,
       Event.waitForSelector h1Sel none (some visibleState),
       Event.screenshot (joinPath cwdA homeRel),
       Event.print (playerMsg ++ joinPath cwdA homeRel),
       Event.browserClose]
    ∧ (playerMain playerEnvOk).files = [joinPath cwdA homeRel]
    ∧ (playerMain playerEnvOk).exit = .ok () :=
  verify_audio_player_single_screenshot playerEnvOk rfl rfl rfl rfl rfl

/-- Claim C5: when the player runner's navigation fails, or the visibility
wait fails after a successful navigation, the error is not caught: the run
exits with that error (non-zero-equivalent), no screenshot file is written,
and the browser is still closed by the `finally` clause. -/
theorem player_error_propagates (env : PlayerEnv) (e : String)
    (hl : env.launch = .ok ()) (hp : env.newPage = .ok ())
    (he : env.goto = .error e ∨ (env.goto = .ok () ∧ env.waitH1 = .error e)) :
    (playerMain env).exit = .error e
    ∧ (playerMain env).files = []
    ∧ Event.browserClose ∈ (playerMain env).trace := by
  obtain ⟨l, np, g, w, s, cwd⟩ := env
  subst hl hp
  rcases he with hg | ⟨hg, hw⟩
  · subst hg
    exact ⟨rfl, rfl, of_decide_eq_true rfl⟩
  · subst hg
    subst hw
    exact ⟨rfl, rfl, of_decide_eq_true rfl⟩

/-- Witness for C5 at an environment whose navigation fails. -/
theorem player_error_propagates_witness :
    (playerMain playerEnvNavFail).exit = .error navErrMsg
    ∧ (playerMain playerEnvNavFail).files = []
    ∧ Event.browserClose ∈ (playerMain playerEnvNavFail).trace :=
  player_error_propagates playerEnvNavFail navErrMsg rfl rfl (Or.inl rfl)

/-- Claim C6: when the application is unreachable (navigation fails) or
"Recent Heat" never appears within the bound (the wait fails), the iPad
runner writes no screenshot files, prints `Error: <e>`, returns normally
(zero-equivalent exit), and the browser is closed. -/
theorem ipad_no_artifacts_when_unreachable (env : IpadEnv) (e : String)
    (hl : env.launch = .ok ()) (hc : env.newContext = .ok ())
    (hp : env.newPage = .ok ())
    (he : env.goto = .error e ∨ (env.goto = .ok () ∧ env.waitRecentHeat = .error e)) :
    (verify_app env).files = []
    ∧ Event.print (errLabel ++ e) ∈ (verify_app env).trace
    ∧ (verify_app env).exit = .ok ()
    ∧ Event.browserClose ∈ (verify_app env).trace := by
  obtain ⟨l, c, np, g, w, sh, cl, sl, cs, ss⟩ := env
  subst hl hc hp
  rcases he with hg | ⟨hg, hw⟩
  · subst hg
    exact ⟨rfl, ipad_error_logged (.error e) w sh cl sl cs ss e rfl,
      ipad_exit_ok (.error e) w sh cl sl cs ss,
      ipad_close_in_trace (.error e) w sh cl sl cs ss⟩
  · subst hg
    subst hw
    exact ⟨rfl, ipad_error_logged (.ok ()) (.error e) sh cl sl cs ss e rfl,
      ipad_exit_ok (.ok ()) (.error e) sh cl sl cs ss,
      ipad_close_in_trace (.ok ()) (.error e) sh cl sl cs ss⟩

/-- Witness for C6 at an environment whose navigation fails. -/
theorem ipad_no_artifacts_when_unreachable_witness :
    (verify_app ipadEnvNavFail).files = []
    ∧ Event.print (errLabel ++ navErrMsg) ∈ (verify_app ipadEnvNavFail).trace
    ∧ (verify_app ipadEnvNavFail).exit = .ok ()
    ∧ Event.browserClose ∈ (verify_app ipadEnvNavFail).trace :=
  ipad_no_artifacts_when_unreachable ipadEnvNavFail navErrMsg rfl rfl rfl (Or.inl rfl)

/-- Counterexample to claim C7 as stated: when iPad context creation fails,
the error escapes before the `try`/`finally` is entered and `browser.close()`
is never called, and likewise when the player runner's page creation fails —
so the session is not closed "on every exit path including session/context/
page setup failures". -/
theorem browser_close_skipped_on_setup_failure :
    ((verify_app ipadEnvCtxFail).exit = .error ctxErrMsg
      ∧ Event.browserClose ∉ (verify_app ipadEnvCtxFail).trace)
    ∧ ((playerMain playerEnvPageFail).exit = .error pageErrMsg
      ∧ Event.browserClose ∉ (playerMain playerEnvPageFail).trace) := by
  decide

/-- Claim C7, amended: in both runners the browser session is closed on every
exit path reached once setup completes (iPad: launch, context creation and
page creation succeed; player: launch and page creation succeed), whether or
not any later step fails; an error during context or page creation, however,
escapes before the close-guarding `try`/`finally` is entered, and
`browser.close()` is not invoked on that path. -/
theorem browser_close_after_setup :
    (∀ env : IpadEnv, env.launch = .ok () → env.newContext = .ok () →
      env.newPage = .ok () → Event.browserClose ∈ (verify_app env).trace)
    ∧ (∀ env : PlayerEnv, env.launch = .ok () → env.newPage = .ok () →
      Event.browserClose ∈ (playerMain env).trace) := by
  constructor
  · intro env hl hc hp
    obtain ⟨l, c, np, g, w, sh, cl, sl, cs, ss⟩ := env
    subst hl hc hp
    exact ipad_close_in_trace g w sh cl sl cs ss
  · intro env hl hp
    obtain ⟨l, np, g, w, s, cwd⟩ := env
    subst hl hp
    rcases g with e1 | u1 <;> rcases w with e2 | u2 <;> rcases s with e3 | u3 <;>
      exact of_decide_eq_true rfl

/-- Witness for the amended C7 at all-success environments. -/
theorem browser_close_after_setup_witness :
    Event.browserClose ∈ (verify_app ipadEnvAllOk).trace
    ∧ Event.browserClose ∈ (playerMain playerEnvOk).trace :=
  ⟨browser_close_after_setup.1 ipadEnvAllOk rfl rfl rfl,
   browser_close_after_setup.2 playerEnvOk rfl rfl⟩

/-- Counterexample to claim C8 as stated: two player-runner runs with
identical browser/application responses but different working directories
write different screenshot paths — the output path is not fully determined by
literal constants in the script, it depends on the invoking environment's
working directory. -/
theorem player_output_path_depends_on_cwd :
    playerEnvOk.launch = playerEnvOkB.launch
    ∧ playerEnvOk.newPage = playerEnvOkB.newPage
    ∧ playerEnvOk.goto = playerEnvOkB.goto
    ∧ playerEnvOk.waitH1 = playerEnvOkB.waitH1
    ∧ playerEnvOk.shotHome = playerEnvOkB.shotHome
    ∧ (playerMain playerEnvOk).files = [joinPath cwdA homeRel]
    ∧ (playerMain playerEnvOkB).files = [joinPath cwdB homeRel]
    ∧ (playerMain playerEnvOk).files ≠ (playerMain playerEnvOkB).files := by
  decide

/-- Claim C8, amended: neither runner reads flags or configuration beyond its
environment of call outcomes; every screenshot path of the iPad runner is one
of the three literal constants; the player runner's single screenshot path is
os.path.join(cwd, "verification/home.png"), so its behavior is determined by
the script's literals together with the working directory: two runs with
identical browser/application responses and the same working directory behave
identically. -/
theorem runner_paths_determined :
    (∀ env : IpadEnv,
      ((screenshotPathsIn (verify_app env).trace).all
        fun p => ipadArtifacts.contains p) = true)
    ∧ (∀ env : PlayerEnv,
        screenshotPathsIn (playerMain env).trace = []
        ∨ screenshotPathsIn (playerMain env).trace = [joinPath env.cwd homeRel])
    ∧ (∀ e1 e2 : PlayerEnv, e1.launch = e2.launch → e1.newPage = e2.newPage →
        e1.goto = e2.goto → e1.waitH1 = e2.waitH1 → e1.shotHome = e2.shotHome →
        e1.cwd = e2.cwd → playerMain e1 = playerMain e2) := by
  refine ⟨?_, ?_, ?_⟩
  · intro env
    obtain ⟨l, c, np, g, w, sh, cl, sl, cs, ss⟩ := env
    rcases l with f1 | v1
    · rfl
    rcases c with f2 | v2
    · rfl
    rcases np with f3 | v3
    · rfl
    rcases g with f4 | v4
    · rfl
    rcases w with f5 | v5
    · rfl
    rcases sh with f6 | v6
    · rfl
    rcases cl with f7 | v7
    · rfl
    rcases sl with f8 | v8
    · rfl
    rcases cs with f9 | v9
    · rfl
    rcases ss with f10 | v10
    · rfl
    rfl
  · intro env
    obtain ⟨l, np, g, w, s, cwd⟩ := env
    rcases l with f1 | v1
    · exact Or.inl rfl
    rcases np with f2 | v2
    · exact Or.inl rfl
    rcases g with f3 | v3
    · exact Or.inl rfl
    rcases w with f4 | v4
    · exact Or.inl rfl
    rcases s with f5 | v5
    · exact Or.inr rfl
    exact Or.inr rfl
  · intro e1 e2 hl hp hg hw hs hc
    obtain ⟨l1, np1, g1, w1, s1, cwd1⟩ := e1
    obtain ⟨l2, np2, g2, w2, s2, cwd2⟩ := e2
    subst hl hp hg hw hs hc
    rfl

/-- Witness for the amended C8 at concrete environments. -/
theorem runner_paths_determined_witness :
    ((screenshotPathsIn (verify_app ipadEnvAllOk).trace).all
      fun p => ipadArtifacts.contains p) = true
    ∧ (screenshotPathsIn (playerMain playerEnvOk).trace = []
      ∨ screenshotPathsIn (playerMain playerEnvOk).trace = [joinPath playerEnvOk.cwd homeRel])
    ∧ playerMain playerEnvOk = playerMain playerEnvOk :=
  ⟨runner_paths_determined.1 ipadEnvAllOk,
   runner_paths_determined.2.1 playerEnvOk,
   runner_paths_determined.2.2 playerEnvOk playerEnvOk rfl rfl rfl rfl rfl rfl⟩

/-- Claim C9: in the iPad runner, an error raised while launching the
browser, creating the iPad context, or opening the page — before the `try`
block — is not caught: it propagates out of verify_app (and nothing is
printed); only an error raised inside the navigation/wait/interaction block
is swallowed, the run then returning normally. -/
theorem ipad_setup_errors_propagate (env : IpadEnv) (e : String) :
    (env.launch = .error e →
      (verify_app env).exit = .error e ∧ ∀ m, Event.print m ∉ (verify_app env).trace)
    ∧ (env.launch = .ok () → env.newContext = .error e →
      (verify_app env).exit = .error e ∧ ∀ m, Event.print m ∉ (verify_app env).trace)
    ∧ (env.launch = .ok () → env.newContext = .ok () → env.newPage = .error e →
      (verify_app env).exit = .error e ∧ ∀ m, Event.print m ∉ (verify_app env).trace)
    ∧ (env.launch = .ok () → env.newContext = .ok () → env.newPage = .ok () →
      tryBlockErr env = some e → (verify_app env).exit = .ok ()) := by
  obtain ⟨l, c, np, g, w, sh, cl, sl, cs, ss⟩ := env
  refine ⟨?_, ?_, ?_, ?_⟩
  · intro hl
    subst hl
    refine ⟨rfl, ?_⟩
    intro m
    simp [verify_app, call, RunState.push]
  · intro hl hc
    subst hl hc
    refine ⟨rfl, ?_⟩
    intro m
    simp [verify_app, call, RunState.push]
  · intro hl hc hp
    subst hl hc hp
    refine ⟨rfl, ?_⟩
    intro m
    simp [verify_app, call, RunState.push]
  · intro hl hc hp _he
    subst hl hc hp
    exact ipad_exit_ok g w sh cl sl cs ss

/-- Witness for C9: setup failure at context creation propagates; a try-block
failure is swallowed. -/
theorem ipad_setup_errors_propagate_witness :
    ((verify_app ipadEnvCtxFail).exit = .error ctxErrMsg
      ∧ ∀ m, Event.print m ∉ (verify_app ipadEnvCtxFail).trace)
    ∧ (verify_app ipadEnvNavFail).exit = .ok () :=
  ⟨(ipad_setup_errors_propagate ipadEnvCtxFail ctxErrMsg).2.1 rfl rfl,
   (ipad_setup_errors_propagate ipadEnvNavFail navErrMsg).2.2.2 rfl rfl rfl rfl⟩

/-- Claim C10: on every run of the iPad runner, the list of screenshot files
written, in order, is an initial segment of
[verification/home_ipad.png, verification/library_ipad.png,
verification/search_ipad.png]: a later artifact is never written without all
earlier ones. -/
theorem ipad_files_initial_segment (env : IpadEnv) :
    firstPartOf (verify_app env).files ipadArtifacts = true := by
  obtain ⟨l, c, np, g, w, sh, cl, sl, cs, ss⟩ := env
  rcases l with f1 | v1
  · rfl
  rcases c with f2 | v2
  · rfl
  rcases np with f3 | v3
  · rfl
  rcases g with f4 | v4
  · rfl
  rcases w with f5 | v5
  · rfl
  rcases sh with f6 | v6
  · rfl
  rcases cl with f7 | v7
  · rfl
  rcases sl with f8 | v8
  · rfl
  rcases cs with f9 | v9
  · rfl
  rcases ss with f10 | v10
  · rfl
  rfl
